import Mathlib

/-!
Shallow embedding of the reactive chart-state engine of
`src/tutorial_solution.py` (a Streamlit/Altair bubble-chart app over a
country/year panel dataset), together with theorems settling the claims
about filtering, scale-domain policy, selection translation and the
animation loop.

Indicator values are modelled as `Option Int` (a `none` value is a
null/NaN cell); a dataframe is a `List Row`.  Chart specifications keep
exactly the parts the claims talk about: the filtered data, the field
names and the three scales (domain, log flag, zero flag, range).
-/

/-- One row of the panel dataset: country, region, year, and the
indicator columns as an association list from column name to nullable
value (a missing key is also a null cell). -/
structure Row where
  country : String
  region : String
  year : Int
  values : List (String × Option Int)
deriving DecidableEq

/-- Column access on a row: `df[ind]` for this row, null if the column
is absent or holds a null. -/
def Row.value (r : Row) (ind : String) : Option Int :=
  (r.values.lookup ind).join

/-- The `keys` dictionary of the script: chosen x/y indicators, log
toggles, current year and selected countries (empty list = no country
filter). -/
structure Keys where
  x : String
  y : String
  x_log : Bool
  y_log : Bool
  year : Int
  countries : List String
deriving DecidableEq

/-- The column name of the population indicator used by the size
channel. -/
def popField : String := "Population, total"

/-- An `alt.Scale(...)`: optional explicit domain (as the pair of the
column min and max, each itself optional because pandas `min`/`max` of
an all-null column is null), log-type flag, zero flag, optional range. -/
structure Scale where
  domain : Option (Option Int × Option Int)
  log : Bool
  zero : Bool
  range : Option (Int × Int)
deriving DecidableEq

/-- The non-null values of column `ind` over a dataframe (pandas
`min`/`max` skip nulls, so the column min/max are taken over this
list). -/
def colVals (df : List Row) (ind : String) : List Int :=
  df.filterMap (fun r => r.value ind)

/-- `df[ind].min()` with pandas null-skipping semantics. -/
def colMin (df : List Row) (ind : String) : Option Int :=
  (colVals df ind).min?

/-- `df[ind].max()` with pandas null-skipping semantics. -/
def colMax (df : List Row) (ind : String) : Option Int :=
  (colVals df ind).max?

/-- Lines 122-123 of the source: `if len(keys['countries']) > 0:
df = df[df['Country'].isin(keys['countries'])]`. -/
def filterCountries (df : List Row) (ks : Keys) : List Row :=
  if ks.countries.length > 0 then
    df.filter (fun r => ks.countries.contains r.country)
  else df

/-- The bubble-chart specification as far as the claims are concerned:
the filtered data bound to the chart, the x/y field names and the
x/y/size scales.  (Mark style, color-by-region with selection dimming,
tooltip and dimensions are constants in the source and carry no claim
content.) -/
structure BubbleChart where
  data : List Row
  xField : String
  yField : String
  xScale : Scale
  yScale : Scale
  sizeScale : Scale
deriving DecidableEq

/-- `plotBubbleChart(df, keys, global_max)` (source lines 120-148):
filter to the selected countries first; under `global_max` set explicit
scale domains from the (country-filtered) dataframe over all years;
then bind as data the rows of the current year whose x and y indicator
values are both non-null. -/
def plotBubbleChart (df : List Row) (ks : Keys) (global_max : Bool) : BubbleChart :=
  let dfc := filterCountries df ks
  let x_scale : Scale :=
    if global_max then
      { domain := some (colMin dfc ks.x, colMax dfc ks.x),
        log := ks.x_log, zero := false, range := none }
    else
      { domain := none, log := ks.x_log, zero := false, range := none }
  let y_scale : Scale :=
    if global_max then
      { domain := some (colMin dfc ks.y, colMax dfc ks.y),
        log := ks.y_log, zero := false, range := none }
    else
      { domain := none, log := ks.y_log, zero := false, range := none }
  let size_scale : Scale :=
    if global_max then
      { domain := some (colMin dfc popField, colMax dfc popField),
        log := false, zero := false, range := some (30, 3000) }
    else
      { domain := none, log := false, zero := false, range := some (30, 3000) }
  let source := dfc.filter (fun r => r.year == ks.year)
  let source := source.filter (fun r => (r.value ks.x).isSome && (r.value ks.y).isSome)
  { data := source, xField := ks.x, yField := ks.y,
    xScale := x_scale, yScale := y_scale, sizeScale := size_scale }

/-- `minmaxYear(df, x, y)` (source lines 155-162): the years with a
non-null value in column `x` (the `Year` column of
`df[['Year', x]].dropna()`). -/
def yearsWithValue (df : List Row) (ind : String) : List Int :=
  (df.filter (fun r => (r.value ind).isSome)).map (fun r => r.year)

/-- `minmaxYear(df, x, y)`: `first` is the max of the two per-indicator
minimum years with a non-null value, `last` the min of the two
per-indicator maximum years.  `none` models the pandas NaN outcome when
a column has no non-null value at all (in which case the script would
fail at `range`). -/
def minmaxYear (df : List Row) (x y : String) : Option (Int × Int) :=
  match (yearsWithValue df x).min?, (yearsWithValue df x).max?,
        (yearsWithValue df y).min?, (yearsWithValue df y).max? with
  | some ax, some bx, some ay, some b2 => some (max ax ay, min bx b2)
  | _, _, _, _ => none

/-- The trace of the `for y in range(first, last+1)` animation loop
(source lines 174-179): one entry per iteration, recording the year
written to the markdown label and to `st.session_state['year']`, and
the bubble chart emitted for that year with `global_max=True`. -/
def animTrace (df : List Row) (ks : Keys) (first last : Int) : List (Int × BubbleChart) :=
  (List.range (last + 1 - first).toNat).map
    (fun i : Nat =>
      (first + (i : Int), plotBubbleChart df { ks with year := first + (i : Int) } true))

/-- The Start button handler (source lines 172-179): compute the year
range with `minmaxYear` and run the animation loop over it.  `none`
models the crash on an all-null indicator column; otherwise the result
is the full list of per-year emissions (every user-visible output of
the block). -/
def startAnim (df : List Row) (ks : Keys) : Option (List (Int × BubbleChart)) :=
  (minmaxYear df ks.x ks.y).map (fun p => animTrace df ks p.1 p.2)

/-- The Stop button handler (source lines 181-183): when `stop` is
pressed and a year is persisted in `st.session_state`, restore it into
`keys['year']` and emit one bubble chart with `global_max=True`;
otherwise do nothing.  Returns the updated keys and the list of charts
emitted. -/
def stopHandler (df : List Row) (ks : Keys) (stop_pressed : Bool)
    (sessionYear : Option Int) : Keys × List BubbleChart :=
  if stop_pressed then
    match sessionYear with
    | some y =>
        ({ ks with year := y }, [plotBubbleChart df { ks with year := y } true])
    | none => (ks, [])
  else (ks, [])

/-- One point constraint of a `vlMulti` selection payload: the
selection is declared over the x, y and size channels, so each
constraint carries a value for each of the three fields. -/
structure Constraint where
  xval : Int
  yval : Int
  sizeval : Int
deriving DecidableEq

/-- The selection-to-countries join (source line 220):
`df.loc[(df['Year'] == keys['year']) & (df[keys['x']].isin(s[keys['x']])), 'Country']`
— from the FULL dataframe, the countries of the rows at the current
year whose x-indicator value is among the x-field values of the
constraints.  A null cell never matches (the constraint values are
actual numbers). -/
def translateSelection (df : List Row) (ks : Keys) (cs : List Constraint) : List String :=
  ((df.filter (fun r =>
      (r.year == ks.year) &&
      (match r.value ks.x with
       | some v => (cs.map (fun k => k.xval)).contains v
       | none => false))).map (fun r => r.country))

/-- Modelled from the spec words of the selection-translation claim,
for comparison with `translateSelection`: the countries of the CURRENT FILTERED
VIEW (the bubble chart's data) whose x-indicator value is among the
constraint x-values. -/
def translateView (df : List Row) (ks : Keys) (cs : List Constraint) : List String :=
  (((plotBubbleChart df ks false).data).filter (fun r =>
      match r.value ks.x with
      | some v => (cs.map (fun k => k.xval)).contains v
      | none => false)).map (fun r => r.country)

/-- The raw payload returned by `altair_component` for the bubble
chart's multi-selection.  `vlMulti = none` models an absent or empty
(falsy) `vlMulti` entry, `some cs` a present `{'or': cs}` payload. -/
structure SelectionEvent where
  vlMulti : Option (List Constraint)
deriving DecidableEq

/-- The selection block (source lines 210-224): skipped entirely when
`selection.get("vlMulti")` is falsy, otherwise joins the constraints to
countries with `translateSelection`.  The keys (and in particular the selected
countries of the sidebar filter) are never modified. -/
def handleSelection (df : List Row) (ks : Keys) (ev : SelectionEvent) : Keys × List String :=
  match ev.vlMulti with
  | none => (ks, [])
  | some cs => (ks, translateSelection df ks cs)

/-- C1: every row of the bubble chart's filtered `source` has the
filter's year, non-null x and y indicator values, and (when countries
are selected) a selected country — and nothing else is done to the
rows: the data is exactly the filter of the dataframe by that
predicate. -/
theorem bubble_source_filter_correct (df : List Row) (ks : Keys) (g : Bool) :
    (plotBubbleChart df ks g).data
      = df.filter (fun r =>
          (r.year == ks.year) && (r.value ks.x).isSome && (r.value ks.y).isSome
            && (ks.countries.isEmpty || ks.countries.contains r.country)) := by
  cases h : ks.countries with
  | nil =>
      simp only [plotBubbleChart, filterCountries, h, List.length_nil, List.isEmpty_nil,
        Nat.lt_irrefl, if_false, List.filter_filter, Bool.true_or, Bool.and_true]
      apply List.filter_congr
      intro r _
      cases hy : (r.year == ks.year) <;>
        cases hx : (r.value ks.x).isSome <;>
        cases hv : (r.value ks.y).isSome <;>
        simp [hy, hx, hv]
  | cons c cs =>
      simp only [plotBubbleChart, filterCountries, h, List.length_cons, List.isEmpty_cons,
        Nat.succ_pos, if_pos, List.filter_filter]
      apply List.filter_congr
      intro r _
      cases hy : (r.year == ks.year) <;>
        cases hx : (r.value ks.x).isSome <;>
        cases hv : (r.value ks.y).isSome <;>
        cases hc : (c :: cs).contains r.country <;>
        simp [hy, hx, hv, hc]

/-- A concrete dataset for the selection-translation claims: countries
A, B, C form the filtered view (x = 10, 20, 10, all y non-null); D has
the same x-value 10 but a null y, so it is NOT in the filtered view. -/
def dfC2 : List Row :=
  [⟨"A", "R", 2000, [("x", some 10), ("y", some 5)]⟩,
   ⟨"B", "R", 2000, [("x", some 20), ("y", some 7)]⟩,
   ⟨"C", "R", 2000, [("x", some 10), ("y", some 3)]⟩,
   ⟨"D", "R", 2000, [("x", some 10), ("y", none)]⟩]

/-- The first three rows of `dfC2` alone: here the full dataset and the
filtered view coincide, matching the view {A:x=10, B:x=20, C:x=10} of
the claim's example. -/
def dfC2view : List Row :=
  [⟨"A", "R", 2000, [("x", some 10), ("y", some 5)]⟩,
   ⟨"B", "R", 2000, [("x", some 20), ("y", some 7)]⟩,
   ⟨"C", "R", 2000, [("x", some 10), ("y", some 3)]⟩]

/-- The filter state used with `dfC2`: x-indicator "x", y-indicator
"y", year 2000, no country filter. -/
def ksC2 : Keys := ⟨"x", "y", false, false, 2000, []⟩

/-- C2, counterexample: for an event constraining x to {10} the code's
join returns country D — a country NOT in the current filtered view
(its y value is null) — so the translator does not return "the set of
countries in the current filtered view" with matching x-value. -/
theorem selection_translate_not_view_cex :
    "D" ∈ translateSelection dfC2 ksC2 [⟨10, 5, 1⟩]
      ∧ "D" ∉ translateView dfC2 ksC2 [⟨10, 5, 1⟩] := by
  decide

/-- C2, amended: the translator joins against the FULL dataset, not the
filtered view: it returns exactly the countries of dataset rows at the
current year whose x-indicator value is among the constraint x-values
(rows with a null y or outside the country filter included).  On the
claim's example view {A:x=10, B:x=20, C:x=10} with constraint x∈{10} it
returns {A, C}. -/
theorem selection_translate_full_dataset :
    (∀ (df : List Row) (ks : Keys) (cs : List Constraint) (c : String),
      c ∈ translateSelection df ks cs
        ↔ ∃ r, r ∈ df ∧ r.country = c ∧ r.year = ks.year ∧
            ∃ v, r.value ks.x = some v ∧ v ∈ cs.map (fun k => k.xval))
    ∧ translateSelection dfC2view ksC2 [⟨10, 5, 1⟩] = ["A", "C"] := by
  constructor
  · intro df ks cs c
    simp only [translateSelection, List.mem_map, List.mem_filter]
    constructor
    · rintro ⟨r, ⟨hr, hp⟩, rfl⟩
      rw [Bool.and_eq_true] at hp
      obtain ⟨h1, h2⟩ := hp
      refine ⟨r, hr, rfl, eq_of_beq h1, ?_⟩
      cases hv : r.value ks.x with
      | none => rw [hv] at h2; cases h2
      | some v =>
          rw [hv] at h2
          exact ⟨v, rfl, by simpa using h2⟩
    · rintro ⟨r, hr, rfl, hyear, v, hv, hmem⟩
      refine ⟨r, ⟨hr, ?_⟩, rfl⟩
      rw [Bool.and_eq_true]
      refine ⟨by simp [hyear], ?_⟩
      rw [hv]
      simpa using hmem
  · decide

/-- Characterisation of `List.min?` over the integers: the result is a
member and a lower bound. -/
theorem int_min_char {l : List Int} {a : Int} (h : l.min? = some a) :
    a ∈ l ∧ ∀ b ∈ l, a ≤ b :=
  ⟨List.min?_mem (fun _ _ => min_choice _ _) h,
   fun b hb => (List.le_min?_iff (fun _ _ _ => le_min_iff) h).mp le_rfl b hb⟩

/-- Characterisation of `List.max?` over the integers: the result is a
member and an upper bound. -/
theorem int_max_char {l : List Int} {a : Int} (h : l.max? = some a) :
    a ∈ l ∧ ∀ b ∈ l, b ≤ a :=
  ⟨List.max?_mem (fun _ _ => max_choice _ _) h,
   fun b hb => (List.max?_le_iff (fun _ _ _ => max_le_iff) h).mp le_rfl b hb⟩

/-- C3: whenever `minmaxYear` yields `(first, last)`, `first` is the
max of the two per-indicator minimum years carrying a non-null value
and `last` is the min of the two per-indicator maximum years (each
witnessed as a member of and a bound on the respective year list). -/
theorem minmax_year_spec (df : List Row) (x y : String) (f l : Int)
    (h : minmaxYear df x y = some (f, l)) :
    ∃ ax bx ay b2,
      (ax ∈ yearsWithValue df x ∧ ∀ t ∈ yearsWithValue df x, ax ≤ t) ∧
      (bx ∈ yearsWithValue df x ∧ ∀ t ∈ yearsWithValue df x, t ≤ bx) ∧
      (ay ∈ yearsWithValue df y ∧ ∀ t ∈ yearsWithValue df y, ay ≤ t) ∧
      (b2 ∈ yearsWithValue df y ∧ ∀ t ∈ yearsWithValue df y, t ≤ b2) ∧
      f = max ax ay ∧ l = min bx b2 := by
  unfold minmaxYear at h
  cases h1 : (yearsWithValue df x).min? with
  | none => rw [h1] at h; simp at h
  | some ax =>
    cases h2 : (yearsWithValue df x).max? with
    | none => rw [h1, h2] at h; simp at h
    | some bx =>
      cases h3 : (yearsWithValue df y).min? with
      | none => rw [h1, h2, h3] at h; simp at h
      | some ay =>
        cases h4 : (yearsWithValue df y).max? with
        | none => rw [h1, h2, h3, h4] at h; simp at h
        | some b2 =>
          rw [h1, h2, h3, h4] at h
          simp only [Option.some.injEq, Prod.mk.injEq] at h
          exact ⟨ax, bx, ay, b2, int_min_char h1, int_max_char h2,
            int_min_char h3, int_max_char h4, h.1.symm, h.2.symm⟩

/-- A concrete dataset realising the claim's example: indicator "A" has
non-null values exactly in years 1965 and 2018, indicator "B" in 1960
and 2015. -/
def dfC3 : List Row :=
  [⟨"c1", "R", 1965, [("A", some 1)]⟩,
   ⟨"c1", "R", 2018, [("A", some 2)]⟩,
   ⟨"c1", "R", 1960, [("B", some 3)]⟩,
   ⟨"c1", "R", 2015, [("B", some 4)]⟩]

/-- Witness for C3 at the claim's example: indicator A valid over
[1965, 2018] and B over [1960, 2015] yield `(1965, 2015)`. -/
theorem minmax_year_spec_witness :
    minmaxYear dfC3 "A" "B" = some (1965, 2015) ∧
    (∃ ax bx ay b2,
      (ax ∈ yearsWithValue dfC3 "A" ∧ ∀ t ∈ yearsWithValue dfC3 "A", ax ≤ t) ∧
      (bx ∈ yearsWithValue dfC3 "A" ∧ ∀ t ∈ yearsWithValue dfC3 "A", t ≤ bx) ∧
      (ay ∈ yearsWithValue dfC3 "B" ∧ ∀ t ∈ yearsWithValue dfC3 "B", ay ≤ t) ∧
      (b2 ∈ yearsWithValue dfC3 "B" ∧ ∀ t ∈ yearsWithValue dfC3 "B", t ≤ b2) ∧
      (1965 : Int) = max ax ay ∧ (2015 : Int) = min bx b2) :=
  ⟨by decide, minmax_year_spec dfC3 "A" "B" 1965 2015 (by decide)⟩

/-- C4: once `minmaxYear` computed a non-empty range `(f, l)`, the
started run is the finite trace with exactly `l - f + 1` entries — one
recompute-and-emit per year, years pairwise distinct and covering
`[f, l]` — each emitting the bubble chart of its year under the global
scale policy, and no year in the run exceeds `l`.  The loop is a map
over a finite range, so the run completes after its last entry. -/
theorem animTrace_mem (df : List Row) (ks : Keys) (first last : Int) (p : Int × BubbleChart) :
    p ∈ animTrace df ks first last ↔
      ∃ i : Nat, i < (last + 1 - first).toNat ∧
        p = (first + (i : Int),
             plotBubbleChart df { ks with year := first + (i : Int) } true) := by
  unfold animTrace
  rw [List.mem_map]
  constructor
  · rintro ⟨i, hi, rfl⟩
    exact ⟨i, List.mem_range.mp hi, rfl⟩
  · rintro ⟨i, hi, rfl⟩
    exact ⟨i, List.mem_range.mpr hi, rfl⟩

theorem animTrace_years (df : List Row) (ks : Keys) (first last : Int) :
    (animTrace df ks first last).map Prod.fst
      = (List.range (last + 1 - first).toNat).map (fun i : Nat => first + (i : Int)) := by
  unfold animTrace
  rw [List.map_map]
  rfl

theorem animation_run_steps (df : List Row) (ks : Keys) (f l : Int)
    (h1 : minmaxYear df ks.x ks.y = some (f, l)) (h2 : f ≤ l) :
    startAnim df ks = some (animTrace df ks f l)
    ∧ (animTrace df ks f l).length = (l - f + 1).toNat
    ∧ (∀ p ∈ animTrace df ks f l, f ≤ p.1 ∧ p.1 ≤ l)
    ∧ ((animTrace df ks f l).map Prod.fst).Nodup
    ∧ (∀ yr : Int, f ≤ yr → yr ≤ l → yr ∈ (animTrace df ks f l).map Prod.fst)
    ∧ (∀ p ∈ animTrace df ks f l,
        p.2 = plotBubbleChart df { ks with year := p.1 } true) := by
  refine ⟨by simp [startAnim, h1], ?_, ?_, ?_, ?_, ?_⟩
  · unfold animTrace
    rw [List.length_map, List.length_range]
    omega
  · intro p hp
    rw [animTrace_mem] at hp
    obtain ⟨i, hi, rfl⟩ := hp
    constructor
    · show f ≤ f + (i : Int)
      omega
    · show f + (i : Int) ≤ l
      omega
  · rw [animTrace_years]
    refine List.Nodup.map ?_ (List.nodup_range _)
    intro a b hab
    have hab2 : f + (a : Int) = f + (b : Int) := hab
    omega
  · intro yr hf hl
    rw [animTrace_years]
    refine List.mem_map.mpr ⟨(yr - f).toNat, List.mem_range.mpr ?_, ?_⟩
    · omega
    · show f + (((yr - f).toNat : Nat) : Int) = yr
      omega
  · intro p hp
    rw [animTrace_mem] at hp
    obtain ⟨i, hi, rfl⟩ := hp
    rfl

/-- A concrete dataset for the animation-run witness: both indicators
are non-null exactly in years 2000 and 2001. -/
def dfC4 : List Row :=
  [⟨"A", "R", 2000, [("x", some 1), ("y", some 2)]⟩,
   ⟨"A", "R", 2001, [("x", some 3), ("y", some 4)]⟩]

/-- The filter state used with `dfC4`. -/
def ksC4 : Keys := ⟨"x", "y", false, false, 1999, []⟩

/-- Witness for C4: on `dfC4` the computed range is `(2000, 2001)` and
the started run satisfies all the properties of the run theorem. -/
theorem animation_run_steps_witness :
    startAnim dfC4 ksC4 = some (animTrace dfC4 ksC4 2000 2001)
    ∧ (animTrace dfC4 ksC4 2000 2001).length = ((2001 : Int) - 2000 + 1).toNat
    ∧ (∀ p ∈ animTrace dfC4 ksC4 2000 2001, (2000 : Int) ≤ p.1 ∧ p.1 ≤ 2001)
    ∧ ((animTrace dfC4 ksC4 2000 2001).map Prod.fst).Nodup
    ∧ (∀ yr : Int, (2000 : Int) ≤ yr → yr ≤ 2001 →
        yr ∈ (animTrace dfC4 ksC4 2000 2001).map Prod.fst)
    ∧ (∀ p ∈ animTrace dfC4 ksC4 2000 2001,
        p.2 = plotBubbleChart dfC4 { ksC4 with year := p.1 } true) :=
  animation_run_steps dfC4 ksC4 2000 2001 (by decide) (by decide)

/-- C5: when Stop is pressed with a persisted session year `y`, the
handler restores `y` into the filter — whatever year the filter held
when the animation was interrupted (`ks.year` is arbitrary here) — and
emits exactly one bubble chart, recomputed at `y` with the global
scale policy (`global_max = true`). -/
theorem stop_restores_persisted_year (df : List Row) (ks : Keys) (y : Int) :
    ((stopHandler df ks true (some y)).1).year = y
    ∧ (stopHandler df ks true (some y)).2
        = [plotBubbleChart df { ks with year := y } true] :=
  ⟨rfl, rfl⟩

/-- C10: when Stop is pressed but no year was ever persisted in session
state, the handler does nothing: the filter is returned unchanged and
no chart is recomputed or emitted. -/
theorem stop_without_persisted_noop (df : List Row) (ks : Keys) :
    stopHandler df ks true none = (ks, []) :=
  rfl

/-- C6, amended: when the computed range is empty (`last < first`) the
Start handler runs zero animation steps — the loop body never executes
and nothing is emitted — and it completes normally rather than raising
an EmptyRange error or surfacing a message. -/
theorem empty_range_zero_steps (df : List Row) (ks : Keys) (f l : Int)
    (h1 : minmaxYear df ks.x ks.y = some (f, l)) (h2 : l < f) :
    startAnim df ks = some [] := by
  have hz : (l + 1 - f).toNat = 0 := by omega
  simp [startAnim, h1, animTrace, hz]

/-- A dataset whose computed animation range is empty: indicator "ix"
is non-null only in 2000, indicator "iy" only in 1990, so
`first = 2000 > 1990 = last`. -/
def dfC6 : List Row :=
  [⟨"A", "R", 2000, [("ix", some 1)]⟩,
   ⟨"A", "R", 1990, [("iy", some 2)]⟩]

/-- The filter state used with `dfC6`. -/
def ksC6 : Keys := ⟨"ix", "iy", false, false, 2000, []⟩

/-- C6, counterexample: on `dfC6` the computed range is empty
(`first = 2000 > 1990 = last`), yet Start neither fails nor surfaces
anything — it returns normally with an empty emission trace (the trace
lists every user-visible output of the Start block: year labels and
charts), so no user-visible message ever appears. -/
theorem empty_range_no_message_cex :
    minmaxYear dfC6 "ix" "iy" = some (2000, 1990)
      ∧ startAnim dfC6 ksC6 = some [] := by
  decide

/-- Witness for the amended C6 at the concrete empty-range dataset. -/
theorem empty_range_zero_steps_witness :
    startAnim dfC6 ksC6 = some [] :=
  empty_range_zero_steps dfC6 ksC6 2000 1990 (by decide) (by decide)

/-- A dataset on which the global scale domains depend on the country
selection: B's x-value 100 (in year 2001) widens the x-domain, so a
country filter {A} shrinks it. -/
def dfC7 : List Row :=
  [⟨"A", "R", 2000, [("x", some 1), ("y", some 1), ("Population, total", some 5)]⟩,
   ⟨"B", "R", 2001, [("x", some 100), ("y", some 5), ("Population, total", some 7)]⟩]

/-- Filter state over `dfC7` with country A selected. -/
def ksC7sel : Keys := ⟨"x", "y", false, false, 2000, ["A"]⟩

/-- Filter state over `dfC7` with no country selected. -/
def ksC7all : Keys := ⟨"x", "y", false, false, 2000, []⟩

/-- C7, counterexample: the claim would make the global x-domain equal
to the full-dataset domain for EVERY filter state, hence equal between
these two filter states, which differ only in the country selection;
but the source filters the dataframe to the selected countries before
taking the global min/max, so the two domains differ ((1,1) for
selection {A} versus (1,100) with no selection). -/
theorem global_domain_country_dep_cex :
    (plotBubbleChart dfC7 ksC7sel true).xScale.domain
      ≠ (plotBubbleChart dfC7 ksC7all true).xScale.domain := by
  decide

/-- C7, amended: with the global scale policy the x, y and size domains
are the min/max of the chosen indicator and population columns over the
dataset RESTRICTED TO THE SELECTED COUNTRIES (the full dataset when no
country is selected), across all years — independent of the current
year, but not of the country selection. -/
theorem global_domains_from_selected_countries (df : List Row) (ks : Keys) :
    (∀ y1 y2 : Int,
      (plotBubbleChart df { ks with year := y1 } true).xScale
          = (plotBubbleChart df { ks with year := y2 } true).xScale
      ∧ (plotBubbleChart df { ks with year := y1 } true).yScale
          = (plotBubbleChart df { ks with year := y2 } true).yScale
      ∧ (plotBubbleChart df { ks with year := y1 } true).sizeScale
          = (plotBubbleChart df { ks with year := y2 } true).sizeScale)
    ∧ (plotBubbleChart df ks true).xScale.domain
        = some (colMin (filterCountries df ks) ks.x, colMax (filterCountries df ks) ks.x)
    ∧ (plotBubbleChart df ks true).yScale.domain
        = some (colMin (filterCountries df ks) ks.y, colMax (filterCountries df ks) ks.y)
    ∧ (plotBubbleChart df ks true).sizeScale.domain
        = some (colMin (filterCountries df ks) popField,
                colMax (filterCountries df ks) popField) :=
  ⟨fun _ _ => ⟨rfl, rfl, rfl⟩, rfl, rfl, rfl⟩

/-- The axis domain the rendering layer effectively uses for the x
channel: the explicit scale domain when the spec carries one, otherwise
the min/max of the data bound to the chart (what Vega-Lite infers per
frame). -/
def effXDomain (c : BubbleChart) : Option Int × Option Int :=
  c.xScale.domain.getD (colMin c.data c.xField, colMax c.data c.xField)

/-- A dataset whose per-year x min/max differ between 2000 and 2010. -/
def dfC8 : List Row :=
  [⟨"A", "R", 2000, [("x", some 1), ("y", some 1), ("Population, total", some 1)]⟩,
   ⟨"A", "R", 2010, [("x", some 50), ("y", some 2), ("Population, total", some 1)]⟩]

/-- The filter state used with `dfC8` (no country filter). -/
def ksC8 : Keys := ⟨"x", "y", false, false, 2000, []⟩

/-- C8: under the global scale policy the specs built for year 2000 and
year 2010 (same dataset, same indicators, all other filter fields
equal) carry identical x, y and size axis domains; under the per-frame
policy the effective domains can differ when the per-year min/max
differ, as on `dfC8`. -/
theorem global_domains_year_invariant :
    (∀ (df : List Row) (ks : Keys),
      (plotBubbleChart df { ks with year := 2000 } true).xScale.domain
          = (plotBubbleChart df { ks with year := 2010 } true).xScale.domain
      ∧ (plotBubbleChart df { ks with year := 2000 } true).yScale.domain
          = (plotBubbleChart df { ks with year := 2010 } true).yScale.domain
      ∧ (plotBubbleChart df { ks with year := 2000 } true).sizeScale.domain
          = (plotBubbleChart df { ks with year := 2010 } true).sizeScale.domain)
    ∧ effXDomain (plotBubbleChart dfC8 { ksC8 with year := 2000 } false)
        ≠ effXDomain (plotBubbleChart dfC8 { ksC8 with year := 2010 } false) :=
  ⟨fun _ _ => ⟨rfl, rfl, rfl⟩, by decide⟩

/-- C9: a selection event with a falsy `vlMulti` payload (absent or
empty) is skipped entirely: the translated country set is empty, the
filter keys — selected countries included — are unchanged, and the
handler returns normally (no error).  Likewise, constraints whose
x-values match no row translate to the empty set, not an error. -/
theorem empty_selection_no_change :
    (∀ (df : List Row) (ks : Keys), handleSelection df ks ⟨none⟩ = (ks, []))
    ∧ (∀ (df : List Row) (ks : Keys) (cs : List Constraint),
        (∀ r ∈ df, ∀ v, r.value ks.x = some v → v ∉ cs.map (fun k => k.xval)) →
        handleSelection df ks ⟨some cs⟩ = (ks, [])) := by
  constructor
  · intro df ks
    rfl
  · intro df ks cs hno
    simp only [handleSelection, translateSelection, Prod.mk.injEq, true_and]
    have hf : (df.filter (fun r =>
        (r.year == ks.year) &&
        (match r.value ks.x with
         | some v => (cs.map (fun k => k.xval)).contains v
         | none => false))) = [] := by
      rw [List.filter_eq_nil_iff]
      intro r hr
      cases hv : r.value ks.x with
      | none => simp [hv]
      | some v =>
          have hnv := hno r hr v hv
          simp only [hv, Bool.and_eq_true, not_and]
          intro _
          simpa using hnv
    rw [hf]
    rfl

/-- A one-row dataset for the no-match selection witness. -/
def dfC9 : List Row := [⟨"A", "R", 2000, [("x", some 10), ("y", some 1)]⟩]

/-- The filter state used with `dfC9`. -/
def ksC9 : Keys := ⟨"x", "y", false, false, 2000, []⟩

/-- Witness for C9: a constraint value (99) absent from the view yields
the empty country set and leaves the keys unchanged. -/
theorem empty_selection_no_change_witness :
    handleSelection dfC9 ksC9 ⟨some [⟨99, 0, 0⟩]⟩ = (ksC9, []) :=
  empty_selection_no_change.2 dfC9 ksC9 [⟨99, 0, 0⟩] (by decide)
